import Mathlib

/-!
Shallow embedding of the Click payment-callback handlers of this repository
(src/src/controllers/click.controller.js, src/unnamed/part_001 = click.service.js,
src/unnamed/part_000 = app.js, src/src/db/migrations.sql).

Request-body fields arrive from Express as JSON / urlencoded values; a field is a
string, a number, or null/absent.  JavaScript numbers are modelled as integers
(every concrete value exercised by the protocol is integral); `Number(x)` returning
NaN is modelled as `Option.none`.  Null and undefined are collapsed into one
constructor `JVal.null`: every test the handlers perform (`!x` truthiness,
`x == null`) treats them identically, and no handler path reaches `Number` on a
null-ish value (each such field is guarded by a truthiness or `== null` check first).
-/

inductive JVal where
  | null
  | str (s : String)
  | num (n : Int)
deriving DecidableEq, Repr

/-- JavaScript truthiness of a request-body value: null/undefined and the empty
string and the number 0 are falsy, everything else is truthy. -/
def JVal.truthy : JVal → Bool
  | .null => false
  | .str s => s ≠ ""
  | .num n => n ≠ 0

/-- `Number(s)` for a string, restricted to optional-minus integer literals:
the empty string coerces to 0 (as in JavaScript), a string of digits (optionally
signed) to its value, anything else to NaN (`none`). -/
def jsStringToNum (s : String) : Option Int :=
  if s = "" then some 0
  else
    match s.toList with
    | '-' :: rest =>
        if rest ≠ [] ∧ rest.all Char.isDigit then
          some (-(Int.ofNat (rest.foldl (fun a c => a * 10 + (c.toNat - 48)) 0)))
        else none
    | cs =>
        if cs.all Char.isDigit then
          some (Int.ofNat (cs.foldl (fun a c => a * 10 + (c.toNat - 48)) 0))
        else none

/-- `Number(v)`: `none` is NaN.  (`JVal.null` covers undefined, whose coercion is
NaN; no handler path applies `Number` to an explicit JSON null.) -/
def JVal.toNum : JVal → Option Int
  | .null => none
  | .str s => jsStringToNum s
  | .num n => some n

/-- JavaScript `String(v)` / template-literal rendering (undefined-flavoured for
null-ish values, matching the destructured-absent-field case the handlers hit). -/
def JVal.jsToString : JVal → String
  | .null => "undefined"
  | .str s => s
  | .num n => toString n

/-- Strict equality (`===`) between a request value and a computed string:
true only when the value is that exact string. -/
def JVal.strictEqStr (v : JVal) (s : String) : Bool :=
  match v with
  | .str t => t = s
  | _ => false

/-- JavaScript `Number(a) === Number(b)` where `none` is NaN: NaN compares
unequal to everything, including itself. -/
def numEq : Option Int → Option Int → Bool
  | some a, some b => a = b
  | _, _ => false

/-- Payment status column (migrations.sql: VARCHAR; the code only ever writes
these four literals, and PENDING is the default at creation). -/
inductive PayStatus where
  | PENDING
  | PAID
  | CANCELED
  | FAILED
deriving DecidableEq, Repr

/-- A row of the payments table (migrations.sql lines 4-13).  `clickPaymentId`
holds the click_payment_id column, `JVal.null` meaning SQL NULL. -/
structure Payment where
  id : Int
  userId : Int
  amount : Int
  clickMerchantTransId : String
  clickPaymentId : JVal
  status : PayStatus
deriving DecidableEq, Repr

/-- Modelled from the spec: `payment.repository.js` is not under src/.
Per spec §6, `PaymentStore.getByMerchantTransId(id) -> Payment?` looks a payment
up by its unique click_merchant_trans_id (migrations.sql line 16 makes the
column unique); the query parameter is the request value rendered as a string. -/
def getPaymentByMerchantTransId (store : List Payment) (mti : JVal) : Option Payment :=
  store.find? (fun p => p.clickMerchantTransId == mti.jsToString)

/-- Modelled from the spec: `payment.repository.js` is not under src/.
Per spec §6, `PaymentStore.getById(id) -> Payment?`. -/
def getPaymentById (store : List Payment) (id : Int) : Option Payment :=
  store.find? (fun p => p.id == id)

/-- Modelled from the spec: `payment.repository.js` is not under src/.
`updatePaymentStatusById(id, status, { clickPaymentId })` is the status write the
controller calls.  Spec §9 states the read-then-write race is inherent in the
original flow (replacing it with a conditional update is called a required
re-architecture), so the write is an unconditional UPDATE by id: it sets the
status, and sets click_payment_id when the option is supplied (`none` = option
object absent, column kept). -/
def updatePaymentStatusById (store : List Payment) (id : Int) (status : PayStatus)
    (clickPaymentId : Option JVal) : List Payment :=
  store.map (fun p =>
    if p.id == id then
      { p with
        status := status,
        clickPaymentId := match clickPaymentId with
          | some v => v
          | none => p.clickPaymentId }
    else p)

/-- Merchant-side configuration consumed by the handlers (config.click). -/
structure ClickConfig where
  serviceId : Int
  secretKey : String
deriving DecidableEq, Repr

/-- Modelled from the spec: `buildClickMd5Signature` lives in
src/src/utils/clickAuth.js, which is not under src/.  Per spec §4.1 it
concatenates, in this exact order, clickTransId, serviceId, secretKey,
merchantTransId, (for COMPLETE) merchantPrepareId, amount, action, signTime,
and returns a deterministic digest compared by exact string equality.  The
digest is abstracted as the concatenation itself: every claim depends only on
the function being a deterministic pure function of exactly these fields in
this order, never on the MD5 algorithm. -/
def buildClickMd5Signature (clickTransId serviceId secretKey merchantTransId : String)
    (merchantPrepareId : Option String) (amount action signTime : String) : String :=
  clickTransId ++ serviceId ++ secretKey ++ merchantTransId ++
    (match merchantPrepareId with
     | some m => m
     | none => "") ++ amount ++ action ++ signTime

/-- The request body as destructured by clickPrepare / clickComplete
(click.controller.js lines 137-145 and 215-225). -/
structure ClickRequest where
  click_trans_id : JVal
  service_id : JVal
  merchant_trans_id : JVal
  merchant_prepare_id : JVal
  amount : JVal
  sign_time : JVal
  sign_string : JVal
  error : JVal
  action : JVal
deriving DecidableEq, Repr

/-- The JSON body the handlers respond with (always HTTP 200).  `error = none`
encodes a NaN error code (unreachable on the paths the claims exercise); echo
fields absent from a branch's json are `none`. -/
structure ClickResponse where
  error : Option Int
  error_note : String
  click_trans_id : Option JVal := none
  merchant_trans_id : Option JVal := none
  merchant_prepare_id : Option Int := none
  merchant_confirm_id : Option Int := none
deriving DecidableEq, Repr

/-- clickError (click.controller.js lines 31-33). -/
def clickError (code : Int) (note : String) : ClickResponse :=
  { error := some code, error_note := note }

/-- mapClickPaymentStatusToLocal (click.controller.js lines 35-38). -/
def mapClickPaymentStatusToLocal (clickPaymentStatus : Int) : PayStatus :=
  if clickPaymentStatus == 1 then .PAID else .PENDING

/-- The required-fields condition of clickPrepare (line 150):
`!click_trans_id || !service_id || !merchant_trans_id || !amount || action == null`. -/
def prepareMissing (req : ClickRequest) : Bool :=
  !req.click_trans_id.truthy || !req.service_id.truthy || !req.merchant_trans_id.truthy ||
    !req.amount.truthy || req.action == JVal.null

/-- The required-fields condition of clickComplete (line 231):
`!click_trans_id || !service_id || !merchant_trans_id || !merchant_prepare_id || action == null`. -/
def completeMissing (req : ClickRequest) : Bool :=
  !req.click_trans_id.truthy || !req.service_id.truthy || !req.merchant_trans_id.truthy ||
    !req.merchant_prepare_id.truthy || req.action == JVal.null

/-- The PREPARE signature (click.controller.js lines 166-174): no merchantPrepareId. -/
def prepareExpectedSign (cfg : ClickConfig) (req : ClickRequest) : String :=
  buildClickMd5Signature req.click_trans_id.jsToString req.service_id.jsToString
    cfg.secretKey req.merchant_trans_id.jsToString none req.amount.jsToString
    req.action.jsToString req.sign_time.jsToString

/-- The COMPLETE signature (click.controller.js lines 247-256): includes merchantPrepareId. -/
def completeExpectedSign (cfg : ClickConfig) (req : ClickRequest) : String :=
  buildClickMd5Signature req.click_trans_id.jsToString req.service_id.jsToString
    cfg.secretKey req.merchant_trans_id.jsToString (some req.merchant_prepare_id.jsToString)
    req.amount.jsToString req.action.jsToString req.sign_time.jsToString

/-- clickPrepare (click.controller.js lines 136-212).  Every branch ends in a
res.json with no repository write, so the handler returns the response paired
with the store it was given, unchanged on all paths. -/
def clickPrepare (cfg : ClickConfig) (store : List Payment) (req : ClickRequest) :
    ClickResponse × List Payment :=
  if prepareMissing req then (clickError (-8) "Missing required parameters", store)
  else if !numEq req.service_id.toNum (some cfg.serviceId) then
    (clickError (-8) "Invalid service_id", store)
  else if !numEq req.action.toNum (some 0) then (clickError (-3) "Invalid action", store)
  else if !req.sign_string.strictEqStr (prepareExpectedSign cfg req) then
    (clickError (-1) "Invalid signature", store)
  else
    match getPaymentByMerchantTransId store req.merchant_trans_id with
    | none => (clickError (-5) "Payment not found", store)
    | some payment =>
      if payment.status == PayStatus.PAID then
        (clickError (-4) "Payment already processed", store)
      else if !numEq (some payment.amount) req.amount.toNum then
        (clickError (-2) "Invalid amount", store)
      else
        ({ error := some 0, error_note := "Success",
           click_trans_id := some req.click_trans_id,
           merchant_trans_id := some req.merchant_trans_id,
           merchant_prepare_id := some payment.id }, store)

/-- What clickComplete decides from its read of the store: either reply at once,
or perform one status write (with the response prepared from the payment as read)
— the two await-separated phases of the source (read at line 265, write at line
290 or 306). -/
inductive CompleteOutcome where
  | reply (r : ClickResponse)
  | write (paymentId : Int) (status : PayStatus) (clickPaymentId : JVal) (r : ClickResponse)
deriving DecidableEq, Repr

/-- The validation-and-read phase of clickComplete (click.controller.js lines
229-306): every check, the store read, and the choice of write, computed from
the snapshot the read returned. -/
def completeReadPhase (cfg : ClickConfig) (store : List Payment) (req : ClickRequest) :
    CompleteOutcome :=
  if completeMissing req then .reply (clickError (-8) "Missing required parameters")
  else if !numEq req.service_id.toNum (some cfg.serviceId) then
    .reply (clickError (-8) "Invalid service_id")
  else if !numEq req.action.toNum (some 1) then .reply (clickError (-3) "Invalid action")
  else if !req.sign_string.strictEqStr (completeExpectedSign cfg req) then
    .reply (clickError (-1) "Invalid signature")
  else
    match getPaymentByMerchantTransId store req.merchant_trans_id with
    | none => .reply (clickError (-5) "Payment not found")
    | some payment =>
      if !numEq (some payment.id) req.merchant_prepare_id.toNum then
        .reply (clickError (-5) "Payment not found")
      else if payment.status == PayStatus.PAID then
        .reply (clickError (-4) "Payment already processed")
      else if req.error.truthy && !numEq req.error.toNum (some 0) then
        .write payment.id
          (match req.error.toNum with
           | some e => if e < 0 then .CANCELED else .FAILED
           | none => .FAILED)
          req.click_trans_id
          { error := req.error.toNum, error_note := "Failed",
            click_trans_id := some req.click_trans_id,
            merchant_trans_id := some req.merchant_trans_id,
            merchant_confirm_id := some payment.id }
      else if !numEq (some payment.amount) req.amount.toNum then
        .reply (clickError (-2) "Invalid amount")
      else
        .write payment.id .PAID req.click_trans_id
          { error := some 0, error_note := "Success",
            click_trans_id := some req.click_trans_id,
            merchant_trans_id := some req.merchant_trans_id,
            merchant_confirm_id := some payment.id }

/-- Executes a CompleteOutcome against a store: a write goes through
updatePaymentStatusById with the click_trans_id as clickPaymentId, exactly the
calls at lines 290 and 306. -/
def applyOutcome (store : List Payment) : CompleteOutcome → ClickResponse × List Payment
  | .reply r => (r, store)
  | .write pid st cpid r => (r, updatePaymentStatusById store pid st (some cpid))

/-- clickComplete (click.controller.js lines 214-313), sequential semantics:
the write applies to the same store the read saw. -/
def clickComplete (cfg : ClickConfig) (store : List Payment) (req : ClickRequest) :
    ClickResponse × List Payment :=
  applyOutcome store (completeReadPhase cfg store req)

/-- Two concurrent deliveries of clickComplete interleaved read-read-write-write:
each handler's read phase runs against the initial store (both reads complete
before either write), then the writes apply in order.  This is a legal
interleaving of the source's two awaits, since no lock or transaction spans
them. -/
def runCompleteConcurrent (cfg : ClickConfig) (store : List Payment)
    (req1 req2 : ClickRequest) : ClickResponse × ClickResponse × List Payment :=
  let o1 := completeReadPhase cfg store req1
  let o2 := completeReadPhase cfg store req2
  let (r1, s1) := applyOutcome store o1
  let (r2, s2) := applyOutcome s1 o2
  (r1, r2, s2)

/-- The options object handed to fetch by clickApiRequest (src/unnamed/part_001
lines 52-65): the source builds only method, headers (Accept + Auth, plus
Content-Type when a json body is present) and body.  `signalTimeoutMs` stands
for the RequestInit cancellation slot (an AbortSignal timeout); the source sets
none, so the field is `none`. -/
structure FetchInit where
  method : String
  hasAuthHeader : Bool
  hasJsonBody : Bool
  signalTimeoutMs : Option Int
deriving DecidableEq, Repr

/-- Outcome of the fetch awaited by clickApiRequest: either the promise rejects
(network failure) or a response arrives with an HTTP status and a parsed
payload (`none` when the body is not parseable json). -/
inductive FetchOutcome (α : Type) where
  | networkError
  | response (status : Int) (payload : Option α)
deriving DecidableEq, Repr

/-- Gateway-call failures as thrown by clickApiRequest: a rethrown fetch
rejection (line 65-68), or the CLICK_API_ERROR built from a non-2xx response
(lines 73-81). -/
inductive GatewayFailure where
  | networkError
  | apiError (status : Int)
deriving DecidableEq, Repr

/-- clickApiRequest (src/unnamed/part_001 lines 40-85): builds the fetch init
(no timeout is configured) and turns the fetch outcome into either the payload
or a thrown error — a network rejection is rethrown, a response with `!res.ok`
(status outside 200-299) throws a 502 CLICK_API_ERROR, otherwise the parsed
payload is returned. -/
def clickApiRequest (α : Type) (method : String) (hasJson : Bool)
    (outcome : FetchOutcome α) : FetchInit × Except GatewayFailure (Option α) :=
  ({ method := method, hasAuthHeader := true, hasJsonBody := hasJson,
     signalTimeoutMs := none },
   match outcome with
   | .networkError => .error .networkError
   | .response status payload =>
     if 200 ≤ status ∧ status < 300 then .ok payload else .error (.apiError status))

/-- The fields of the gateway's payment-status payload that
syncPaymentStatusFromClick reads: payment_id (any value, possibly absent =
null) and payment_status (`some n` exactly when the field is a JS number,
mirroring the `typeof === 'number'` test at line 109). -/
structure ClickStatusResponse where
  payment_id : JVal
  payment_status : Option Int
deriving DecidableEq, Repr

/-- What syncPaymentStatusFromClick responds with: the 404 branch, or the
up-to-date payment row it returns in the json body. -/
inductive SyncView where
  | notFound
  | synced (payment : Payment)
deriving DecidableEq, Repr

/-- syncPaymentStatusFromClick (click.controller.js lines 98-118).  The gateway
call is clickApiRequest on a GET with no body (part_001 lines 112-120); a
thrown gateway failure propagates out of the handler (Except.error) before any
write.  When the gateway reports a numeric payment_status, the local status is
overwritten via updatePaymentStatusById with mapClickPaymentStatusToLocal of
it, and click_payment_id is set to Number(payment_id) when payment_id is
truthy, else null (lines 108-115). -/
def syncPaymentStatusFromClick (store : List Payment) (id : Int)
    (outcome : FetchOutcome ClickStatusResponse) :
    Except GatewayFailure SyncView × List Payment :=
  match getPaymentById store id with
  | none => (.ok .notFound, store)
  | some payment =>
    match (clickApiRequest ClickStatusResponse "GET" false outcome).2 with
    | .error e => (.error e, store)
    | .ok response =>
      let clickPaymentId : JVal :=
        match response with
        | some r =>
          if r.payment_id.truthy then
            match r.payment_id.toNum with
            | some n => .num n
            | none => .null
          else .null
        | none => .null
      let clickPaymentStatus : Option Int :=
        match response with
        | some r => r.payment_status
        | none => none
      match clickPaymentStatus with
      | none => (.ok (.synced payment), store)
      | some s =>
        let status := mapClickPaymentStatusToLocal s
        (.ok (.synced { payment with status := status, clickPaymentId := clickPaymentId }),
         updatePaymentStatusById store payment.id status (some clickPaymentId))

/-- What reversePayment responds with: 404, the 409 missing-click_payment_id
conflict, or the reversal ack together with the updated payment row. -/
inductive ReverseView where
  | notFound
  | missingClickPaymentId
  | reversed (payment : Payment)
deriving DecidableEq, Repr

/-- reversePayment (click.controller.js lines 120-134).  Requires a truthy
click_payment_id; the gateway call is clickApiRequest on a DELETE with no body
(part_001 lines 122-127); a thrown gateway failure propagates before the write;
on success the payment is set to CANCELED via updatePaymentStatusById with no
clickPaymentId option. -/
def reversePayment (store : List Payment) (id : Int)
    (outcome : FetchOutcome JVal) :
    Except GatewayFailure ReverseView × List Payment :=
  match getPaymentById store id with
  | none => (.ok .notFound, store)
  | some payment =>
    if !payment.clickPaymentId.truthy then (.ok .missingClickPaymentId, store)
    else
      match (clickApiRequest JVal "DELETE" false outcome).2 with
      | .error e => (.error e, store)
      | .ok _ =>
        (.ok (.reversed { payment with status := .CANCELED }),
         updatePaymentStatusById store payment.id .CANCELED none)

/-!
## Concrete fixtures

A configuration, a PENDING payment, and callback bodies used by the concrete
theorems below.  The valid signatures are written as `buildClickMd5Signature`
applied to the rendered fields, i.e. exactly the digest the handler will
recompute.
-/

def cfg0 : ClickConfig := { serviceId := 2, secretKey := "sk" }

def pay0 : Payment :=
  { id := 42, userId := 1, amount := 50000, clickMerchantTransId := "abc",
    clickPaymentId := JVal.null, status := .PENDING }

/-- A fully valid COMPLETE body for pay0 (action 1, matching amount, correct
signature, no provider error). -/
def reqComplete0 : ClickRequest :=
  { click_trans_id := .num 7, service_id := .num 2, merchant_trans_id := .str "abc",
    merchant_prepare_id := .num 42, amount := .num 50000, sign_time := .str "T",
    sign_string := .str (buildClickMd5Signature "7" "2" "sk" "abc" (some "42") "50000" "1" "T"),
    error := .null, action := .num 1 }

/-- A fully valid PREPARE body for pay0 (action 0, matching amount, correct
signature). -/
def reqPrepare0 : ClickRequest :=
  { click_trans_id := .num 7, service_id := .num 2, merchant_trans_id := .str "abc",
    merchant_prepare_id := .null, amount := .num 50000, sign_time := .str "T",
    sign_string := .str (buildClickMd5Signature "7" "2" "sk" "abc" none "50000" "0" "T"),
    error := .null, action := .num 0 }

/-- The success response clickComplete sends for payment p on request req. -/
def completeSuccessResponse (req : ClickRequest) (p : Payment) : ClickResponse :=
  { error := some 0, error_note := "Success",
    click_trans_id := some req.click_trans_id,
    merchant_trans_id := some req.merchant_trans_id,
    merchant_confirm_id := some p.id }

/-- A PREPARE body that is valid except that sign_string is absent (sign_time
present): exercises the scope of the required-fields check. -/
def reqPrepareNoSign : ClickRequest :=
  { click_trans_id := .num 7, service_id := .num 2, merchant_trans_id := .str "abc",
    merchant_prepare_id := .null, amount := .num 50000, sign_time := .str "T",
    sign_string := .null, error := .null, action := .num 0 }

/-- A PREPARE body with a missing merchant_trans_id and a tampered sign_string. -/
def reqPrepareTampered : ClickRequest :=
  { click_trans_id := .num 7, service_id := .num 2, merchant_trans_id := .null,
    merchant_prepare_id := .null, amount := .num 50000, sign_time := .str "T",
    sign_string := .str "bogus", error := .null, action := .num 0 }

/-- A PREPARE body whose amount is the string "0" (truthy in JavaScript), with
a signature that is correct for that body. -/
def reqPrepareAmountStr0 : ClickRequest :=
  { click_trans_id := .num 7, service_id := .num 2, merchant_trans_id := .str "abc",
    merchant_prepare_id := .null, amount := .str "0", sign_time := .str "T",
    sign_string := .str (buildClickMd5Signature "7" "2" "sk" "abc" none "0" "0" "T"),
    error := .null, action := .num 0 }

/-- reqComplete0 carrying the provider error code -9. -/
def reqCompleteErrNeg : ClickRequest := { reqComplete0 with error := .num (-9) }

/-!
## Helper lemmas
-/

/-- clickPrepare returns its store unchanged on every branch: the handler
contains no repository write. -/
theorem clickPrepare_snd (cfg : ClickConfig) (store : List Payment) (req : ClickRequest) :
    (clickPrepare cfg store req).2 = store := by
  unfold clickPrepare
  (repeat' split) <;> rfl

/-- Looking a payment up by merchant transaction id after an update-by-id:
the update preserves the key column, so the same row is found, transformed. -/
theorem getPaymentByMerchantTransId_update (store : List Payment) (id : Int)
    (st : PayStatus) (c : Option JVal) (mti : JVal) :
    getPaymentByMerchantTransId (updatePaymentStatusById store id st c) mti =
      (getPaymentByMerchantTransId store mti).map (fun p =>
        if p.id == id then
          { p with
            status := st,
            clickPaymentId := match c with
              | some v => v
              | none => p.clickPaymentId }
        else p) := by
  unfold getPaymentByMerchantTransId updatePaymentStatusById
  rw [List.find?_map]
  congr 1
  congr 1
  funext p
  by_cases h : (p.id == id) = true <;> simp [h, Function.comp]

/-- Inversion for the write outcomes of completeReadPhase: a write is only ever
produced for the payment found under the request's merchant_trans_id, after the
already-PAID guard passed. -/
theorem completeReadPhase_write_inv (cfg : ClickConfig) (store : List Payment)
    (req : ClickRequest) (pid : Int) (st : PayStatus) (c : JVal) (r : ClickResponse)
    (h : completeReadPhase cfg store req = .write pid st c r) :
    ∃ q, getPaymentByMerchantTransId store req.merchant_trans_id = some q ∧
      q.id = pid ∧ (q.status == PayStatus.PAID) = false := by
  unfold completeReadPhase at h
  (repeat' split at h) <;> simp_all

/-- A payment whose id differs from the updated id survives
updatePaymentStatusById unchanged. -/
theorem mem_update_of_ne (store : List Payment) (id : Int) (st : PayStatus)
    (c : Option JVal) (p : Payment) (hp : p ∈ store) (hne : (p.id == id) = false) :
    p ∈ updatePaymentStatusById store id st c := by
  induction store with
  | nil => simp at hp
  | cons a l ih =>
    rw [List.mem_cons] at hp
    unfold updatePaymentStatusById at ih ⊢
    rcases hp with rfl | hp
    · have hne2 : ¬(p.id = id) := by simpa using hne
      simp [List.map_cons, List.mem_cons, hne2]
    · simp only [List.map_cons, List.mem_cons]
      exact Or.inr (ih hp)

/-- numEq on two present numbers is plain decidable equality. -/
theorem numEq_some (a b : Int) : numEq (some a) (some b) = decide (a = b) := rfl

/-!
## Claim theorems
-/

/-- C1: two COMPLETE deliveries for the same merchantTransId, interleaved
read-read-write-write against a PENDING payment, BOTH take the PAID write path
and BOTH answer error 0 — not one PAID and one -4.  The status write the
controller uses is an unconditional update-by-id after a separate read (spec §9
calls this race inherent in the original flow), so the claimed compare-and-swap
is absent and the claimed exactly-once outcome fails on this interleaving. -/
theorem clickComplete_concurrent_double_paid :
    completeReadPhase cfg0 [pay0] reqComplete0 =
      CompleteOutcome.write 42 PayStatus.PAID (JVal.num 7)
        (completeSuccessResponse reqComplete0 pay0) ∧
    (runCompleteConcurrent cfg0 [pay0] reqComplete0 reqComplete0).1.error = some 0 ∧
    (runCompleteConcurrent cfg0 [pay0] reqComplete0 reqComplete0).2.1.error = some 0 ∧
    (runCompleteConcurrent cfg0 [pay0] reqComplete0 reqComplete0).2.2 =
      [{ pay0 with status := PayStatus.PAID, clickPaymentId := JVal.num 7 }] := by
  decide

/-- C2 counterexample: a payment in the terminal status CANCELED is transitioned
to PAID by a fully valid COMPLETE callback — the only terminal guard in
clickComplete is the status === PAID check, so CANCELED and FAILED are not
absorbing and the claim as stated is false. -/
theorem clickComplete_revives_canceled_payment :
    clickComplete cfg0 [{ pay0 with status := PayStatus.CANCELED }] reqComplete0 =
      (completeSuccessResponse reqComplete0 pay0,
       [{ pay0 with status := PayStatus.PAID, clickPaymentId := JVal.num 7 }]) := by
  decide

/-- C2 amended: only PAID is absorbing for the callback handlers — a payment in
status PAID is left untouched by every COMPLETE (when payment ids are unique)
and clickPrepare never writes at all; CANCELED and FAILED are not absorbing
(see the counterexample), and status synchronization can rewrite any status. -/
theorem paid_payments_absorbing_for_callbacks (cfg : ClickConfig) (store : List Payment)
    (req : ClickRequest) (p : Payment)
    (hnd : (store.map Payment.id).Nodup) (hp : p ∈ store)
    (hst : p.status = PayStatus.PAID) :
    p ∈ (clickComplete cfg store req).2 ∧ (clickPrepare cfg store req).2 = store := by
  refine ⟨?_, clickPrepare_snd cfg store req⟩
  unfold clickComplete
  cases hout : completeReadPhase cfg store req with
  | reply r => simpa [applyOutcome] using hp
  | write pid st c r =>
    obtain ⟨q, hq, hqid, hqpaid⟩ := completeReadPhase_write_inv cfg store req pid st c r hout
    have hqmem : q ∈ store := List.mem_of_find?_eq_some hq
    have hpq : p ≠ q := by
      intro he
      rw [he] at hst
      rw [hst] at hqpaid
      simp at hqpaid
    have hne : p.id ≠ pid := by
      rw [← hqid]
      intro he
      exact hpq (List.inj_on_of_nodup_map hnd hp hqmem he)
    have hbeq : (p.id == pid) = false := beq_eq_false_iff_ne.mpr hne
    simpa [applyOutcome] using mem_update_of_ne store pid st (some c) p hp hbeq

/-- C2 witness: the amended theorem applied to a PAID payment and the concrete
valid COMPLETE body. -/
theorem paid_payments_absorbing_witness :
    ({ pay0 with status := PayStatus.PAID } : Payment) ∈
      (clickComplete cfg0 [{ pay0 with status := PayStatus.PAID }] reqComplete0).2 ∧
    (clickPrepare cfg0 [{ pay0 with status := PayStatus.PAID }] reqComplete0).2 =
      [{ pay0 with status := PayStatus.PAID }] :=
  paid_payments_absorbing_for_callbacks cfg0 [{ pay0 with status := PayStatus.PAID }]
    reqComplete0 { pay0 with status := PayStatus.PAID }
    (by decide) (by decide) (by decide)

/-- C3 counterexample: synchronization applies no terminal-state guard at all —
for a payment already PAID, a gateway report with payment_status = 0 rewrites
the local status to PENDING (mapClickPaymentStatusToLocal maps every non-1 code
to PENDING), so the status does not stay unchanged as the claim requires. -/
theorem sync_overwrites_paid_payment :
    syncPaymentStatusFromClick [{ pay0 with status := PayStatus.PAID }] 42
        (FetchOutcome.response 200
          (some { payment_id := JVal.num 9, payment_status := some 0 })) =
      (Except.ok (SyncView.synced
         { pay0 with status := PayStatus.PENDING, clickPaymentId := JVal.num 9 }),
       [{ pay0 with status := PayStatus.PENDING, clickPaymentId := JVal.num 9 }]) := by
  rfl

/-- C3 amended: whenever the gateway returns a numeric payment_status for an
existing payment, syncPaymentStatusFromClick unconditionally overwrites the
payment's status with mapClickPaymentStatusToLocal of that code (PAID for 1,
PENDING otherwise), whatever the current status — including terminal ones: the
theorem carries no hypothesis on the stored status. -/
theorem sync_unconditional_overwrite (store : List Payment) (id : Int)
    (outcome : FetchOutcome ClickStatusResponse) (p : Payment)
    (r : ClickStatusResponse) (s : Int)
    (h1 : getPaymentById store id = some p)
    (h2 : (clickApiRequest ClickStatusResponse "GET" false outcome).2 =
      Except.ok (some r))
    (h3 : r.payment_status = some s) :
    (syncPaymentStatusFromClick store id outcome).2 =
      updatePaymentStatusById store p.id (mapClickPaymentStatusToLocal s)
        (some (if r.payment_id.truthy then
                 match r.payment_id.toNum with
                 | some n => JVal.num n
                 | none => JVal.null
               else JVal.null)) := by
  unfold syncPaymentStatusFromClick
  rw [h1, h2]
  simp [h3]

/-- C3 witness: the amended theorem applied to the PAID payment of the
counterexample. -/
theorem sync_unconditional_overwrite_witness :
    (syncPaymentStatusFromClick [{ pay0 with status := PayStatus.PAID }] 42
        (FetchOutcome.response 200
          (some { payment_id := JVal.num 9, payment_status := some 0 }))).2 =
      updatePaymentStatusById [{ pay0 with status := PayStatus.PAID }] 42
        (mapClickPaymentStatusToLocal 0) (some (JVal.num 9)) :=
  sync_unconditional_overwrite [{ pay0 with status := PayStatus.PAID }] 42
    (FetchOutcome.response 200
      (some { payment_id := JVal.num 9, payment_status := some 0 }))
    { pay0 with status := PayStatus.PAID }
    { payment_id := JVal.num 9, payment_status := some 0 } 0
    (by decide) (by rfl) (by rfl)

/-- C4 counterexample: a PREPARE callback missing only sign_string (sign_time
present, every listed field valid) is NOT answered with -8 — the required-field
check at line 150 tests only click_trans_id, service_id, merchant_trans_id,
amount and action, so the request falls through to the signature comparison and
gets -1. -/
theorem prepare_missing_sign_gives_invalid_signature :
    reqPrepareNoSign.sign_string = JVal.null ∧
    (clickPrepare cfg0 [] reqPrepareNoSign).1.error = some (-1) ∧
    (clickPrepare cfg0 [] reqPrepareNoSign).1.error ≠ some (-8) := by
  decide

/-- C4 amended: the presence check is the first check and short-circuits — any
PREPARE whose click_trans_id, service_id, merchant_trans_id or amount is falsy
or whose action is null gets -8 whatever every other field holds; but the
check does not cover sign_time or sign_string (they do not occur in it), and a
callback missing only sign_string passes it and fails the signature comparison
with -1. -/
theorem prepare_presence_check_scope :
    (∀ (cfg : ClickConfig) (store : List Payment) (req : ClickRequest),
        prepareMissing req = true →
        clickPrepare cfg store req = (clickError (-8) "Missing required parameters", store)) ∧
    (∀ (req : ClickRequest) (v w : JVal),
        prepareMissing { req with sign_time := v, sign_string := w } = prepareMissing req) ∧
    (∀ (cfg : ClickConfig) (store : List Payment) (req : ClickRequest),
        prepareMissing req = false →
        numEq req.service_id.toNum (some cfg.serviceId) = true →
        numEq req.action.toNum (some 0) = true →
        req.sign_string = JVal.null →
        clickPrepare cfg store req = (clickError (-1) "Invalid signature", store)) := by
  refine ⟨?_, ?_, ?_⟩
  · intro cfg store req h
    unfold clickPrepare
    simp [h]
  · intro req v w
    rfl
  · intro cfg store req h1 h2 h3 h4
    unfold clickPrepare
    simp [h1, h2, h3, h4, JVal.strictEqStr]

/-- C4 witness: the amended theorem applied to the no-sign_string body (third
conjunct) and to a body with a falsy merchant_trans_id (first conjunct). -/
theorem prepare_presence_check_scope_witness :
    clickPrepare cfg0 [] reqPrepareNoSign = (clickError (-1) "Invalid signature", []) ∧
    clickPrepare cfg0 [] reqPrepareTampered =
      (clickError (-8) "Missing required parameters", []) :=
  ⟨prepare_presence_check_scope.2.2 cfg0 [] reqPrepareNoSign
     (by decide) (by decide) (by decide) (by decide),
   prepare_presence_check_scope.1 cfg0 [] reqPrepareTampered (by decide)⟩

/-- C5 counterexample: a PREPARE callback whose sign_string does not equal the
expected digest but whose merchant_trans_id is missing is answered -8, not -1:
the field/service/action checks run before the signature check, so a tampered
signature does NOT yield -1 regardless of the other fields. -/
theorem tampered_sign_after_missing_field_gives_minus8 :
    reqPrepareTampered.sign_string.strictEqStr
      (prepareExpectedSign cfg0 reqPrepareTampered) = false ∧
    (clickPrepare cfg0 [] reqPrepareTampered).1.error = some (-8) ∧
    (clickPrepare cfg0 [] reqPrepareTampered).1.error ≠ some (-1) := by
  decide

/-- C5 amended: for every PREPARE or COMPLETE callback that passes the
presence, service-id and action checks, a sign_string differing from the
expected digest yields -1 and no store change, regardless of payment
existence, stored status or amount (no hypothesis mentions the store). -/
theorem tampered_signature_rejected :
    (∀ (cfg : ClickConfig) (store : List Payment) (req : ClickRequest),
        prepareMissing req = false →
        numEq req.service_id.toNum (some cfg.serviceId) = true →
        numEq req.action.toNum (some 0) = true →
        req.sign_string.strictEqStr (prepareExpectedSign cfg req) = false →
        clickPrepare cfg store req = (clickError (-1) "Invalid signature", store)) ∧
    (∀ (cfg : ClickConfig) (store : List Payment) (req : ClickRequest),
        completeMissing req = false →
        numEq req.service_id.toNum (some cfg.serviceId) = true →
        numEq req.action.toNum (some 1) = true →
        req.sign_string.strictEqStr (completeExpectedSign cfg req) = false →
        clickComplete cfg store req = (clickError (-1) "Invalid signature", store)) := by
  constructor
  · intro cfg store req h1 h2 h3 h4
    unfold clickPrepare
    simp [h1, h2, h3, h4]
  · intro cfg store req h1 h2 h3 h4
    unfold clickComplete completeReadPhase applyOutcome
    simp [h1, h2, h3, h4]

/-- C5 witness: the amended theorem applied to otherwise-valid PREPARE and
COMPLETE bodies whose sign_string was replaced with "bogus". -/
theorem tampered_signature_rejected_witness :
    clickPrepare cfg0 [pay0] { reqPrepare0 with sign_string := JVal.str "bogus" } =
      (clickError (-1) "Invalid signature", [pay0]) ∧
    clickComplete cfg0 [pay0] { reqComplete0 with sign_string := JVal.str "bogus" } =
      (clickError (-1) "Invalid signature", [pay0]) :=
  ⟨tampered_signature_rejected.1 cfg0 [pay0]
     { reqPrepare0 with sign_string := JVal.str "bogus" }
     (by decide) (by decide) (by decide) (by decide),
   tampered_signature_rejected.2 cfg0 [pay0]
     { reqComplete0 with sign_string := JVal.str "bogus" }
     (by decide) (by decide) (by decide) (by decide)⟩

/-- C10 counterexample: an amount equal to the string "0" is truthy in
JavaScript (only the number 0 and the empty string among amounts are falsy),
so with every other field valid the request passes the presence check and
reaches the amount-mismatch branch: the response is -2, not -8. -/
theorem prepare_string_zero_amount_reaches_minus2 :
    reqPrepareAmountStr0.amount = JVal.str "0" ∧
    (clickPrepare cfg0 [pay0] reqPrepareAmountStr0).1.error = some (-2) ∧
    (clickPrepare cfg0 [pay0] reqPrepareAmountStr0).1.error ≠ some (-8) := by
  decide

/-- C10 amended: a PREPARE whose amount is a genuinely falsy value — the number
0 or the empty string — is answered -8 by the presence check before any other
check, and so can reach neither the -2 branch nor the success branch; the
string "0", being truthy, is not caught (see the counterexample). -/
theorem prepare_falsy_amount_gives_minus8 (cfg : ClickConfig) (store : List Payment)
    (req : ClickRequest) (h : req.amount = JVal.num 0 ∨ req.amount = JVal.str "") :
    clickPrepare cfg store req = (clickError (-8) "Missing required parameters", store) := by
  have ht : req.amount.truthy = false := by
    rcases h with h | h <;> simp [h, JVal.truthy]
  have hm : prepareMissing req = true := by
    unfold prepareMissing
    simp [ht]
  unfold clickPrepare
  simp [hm]

/-- C10 witness: the amended theorem applied to the valid PREPARE body with its
amount replaced by the number 0. -/
theorem prepare_falsy_amount_witness :
    clickPrepare cfg0 [pay0] { reqPrepare0 with amount := JVal.num 0 } =
      (clickError (-8) "Missing required parameters", [pay0]) :=
  prepare_falsy_amount_gives_minus8 cfg0 [pay0]
    { reqPrepare0 with amount := JVal.num 0 } (Or.inl rfl)

/-- C6: a COMPLETE that passes every check up to and including the
not-already-PAID guard and carries a truthy provider error with nonzero
numeric value e transitions the payment to CANCELED when e is negative and
FAILED otherwise, persists click_trans_id as the gateway payment id, echoes e
as the response error with merchant_confirm_id = payment.id — and performs no
amount check: no hypothesis below relates req.amount to the stored amount. -/
theorem clickComplete_provider_error_relay (cfg : ClickConfig) (store : List Payment)
    (req : ClickRequest) (p : Payment) (e : Int)
    (h1 : completeMissing req = false)
    (h2 : numEq req.service_id.toNum (some cfg.serviceId) = true)
    (h3 : numEq req.action.toNum (some 1) = true)
    (h4 : req.sign_string.strictEqStr (completeExpectedSign cfg req) = true)
    (h5 : getPaymentByMerchantTransId store req.merchant_trans_id = some p)
    (h6 : numEq (some p.id) req.merchant_prepare_id.toNum = true)
    (h7 : (p.status == PayStatus.PAID) = false)
    (h8 : req.error.truthy = true)
    (h9 : req.error.toNum = some e)
    (h10 : e ≠ 0) :
    clickComplete cfg store req =
      ({ error := some e, error_note := "Failed",
         click_trans_id := some req.click_trans_id,
         merchant_trans_id := some req.merchant_trans_id,
         merchant_confirm_id := some p.id },
       updatePaymentStatusById store p.id
         (if e < 0 then PayStatus.CANCELED else PayStatus.FAILED)
         (some req.click_trans_id)) := by
  unfold clickComplete completeReadPhase applyOutcome
  simp [h1, h2, h3, h4, h5, h6, h7, h8, h9, numEq_some, h10]

/-- C6 witness: the relay theorem applied to the concrete COMPLETE body carrying
error -9 (negative, therefore CANCELED). -/
theorem clickComplete_provider_error_relay_witness :
    clickComplete cfg0 [pay0] reqCompleteErrNeg =
      ({ error := some (-9), error_note := "Failed",
         click_trans_id := some (JVal.num 7),
         merchant_trans_id := some (JVal.str "abc"),
         merchant_confirm_id := some 42 },
       updatePaymentStatusById [pay0] 42
         (if (-9 : Int) < 0 then PayStatus.CANCELED else PayStatus.FAILED)
         (some (JVal.num 7))) :=
  clickComplete_provider_error_relay cfg0 [pay0] reqCompleteErrNeg pay0 (-9)
    (by decide) (by decide) (by decide) (by decide) (by rfl) (by decide)
    (by decide) (by decide) (by rfl) (by decide)

/-- C7: replaying an identical, previously-successful COMPLETE sequentially —
the hypotheses pin exactly the success path of the first delivery — yields -4
on the second delivery, and the second delivery performs no write: the store
(hence the payment's PAID status and its gatewayPaymentId = click_trans_id)
is exactly what the first delivery left. -/
theorem clickComplete_replay_idempotent (cfg : ClickConfig) (store : List Payment)
    (req : ClickRequest) (p : Payment)
    (h1 : completeMissing req = false)
    (h2 : numEq req.service_id.toNum (some cfg.serviceId) = true)
    (h3 : numEq req.action.toNum (some 1) = true)
    (h4 : req.sign_string.strictEqStr (completeExpectedSign cfg req) = true)
    (h5 : getPaymentByMerchantTransId store req.merchant_trans_id = some p)
    (h6 : numEq (some p.id) req.merchant_prepare_id.toNum = true)
    (h7 : (p.status == PayStatus.PAID) = false)
    (h8 : (req.error.truthy && !numEq req.error.toNum (some 0)) = false)
    (h9 : numEq (some p.amount) req.amount.toNum = true) :
    clickComplete cfg store req =
      (completeSuccessResponse req p,
       updatePaymentStatusById store p.id PayStatus.PAID (some req.click_trans_id)) ∧
    clickComplete cfg
        (updatePaymentStatusById store p.id PayStatus.PAID (some req.click_trans_id)) req =
      (clickError (-4) "Payment already processed",
       updatePaymentStatusById store p.id PayStatus.PAID (some req.click_trans_id)) := by
  constructor
  · unfold clickComplete completeReadPhase applyOutcome completeSuccessResponse
    simp [h1, h2, h3, h4, h5, h6, h7, h8, h9]
  · unfold clickComplete completeReadPhase applyOutcome
    rw [getPaymentByMerchantTransId_update store p.id PayStatus.PAID
      (some req.click_trans_id) req.merchant_trans_id, h5]
    simp [h1, h2, h3, h4, h6]

/-- C7 witness: the replay theorem at the concrete PENDING payment and valid
COMPLETE body: first delivery succeeds and writes PAID, the replay gets -4 and
changes nothing. -/
theorem clickComplete_replay_idempotent_witness :
    clickComplete cfg0 [pay0] reqComplete0 =
      (completeSuccessResponse reqComplete0 pay0,
       updatePaymentStatusById [pay0] 42 PayStatus.PAID (some (JVal.num 7))) ∧
    clickComplete cfg0
        (updatePaymentStatusById [pay0] 42 PayStatus.PAID (some (JVal.num 7))) reqComplete0 =
      (clickError (-4) "Payment already processed",
       updatePaymentStatusById [pay0] 42 PayStatus.PAID (some (JVal.num 7))) :=
  clickComplete_replay_idempotent cfg0 [pay0] reqComplete0 pay0
    (by decide) (by decide) (by decide) (by decide) (by rfl) (by decide)
    (by decide) (by decide) (by decide)

/-- C8: a PREPARE with everything valid — fields present, matching service id,
action 0, correct signature, existing PENDING payment, numerically equal
amount — answers error 0 echoing click_trans_id, merchant_trans_id and
merchant_prepare_id = payment.id; and for every PREPARE whatsoever the store
is returned unchanged (the handler contains no write). -/
theorem clickPrepare_success_and_frame (cfg : ClickConfig) (store : List Payment)
    (req : ClickRequest) (p : Payment)
    (h1 : prepareMissing req = false)
    (h2 : numEq req.service_id.toNum (some cfg.serviceId) = true)
    (h3 : numEq req.action.toNum (some 0) = true)
    (h4 : req.sign_string.strictEqStr (prepareExpectedSign cfg req) = true)
    (h5 : getPaymentByMerchantTransId store req.merchant_trans_id = some p)
    (h6 : p.status = PayStatus.PENDING)
    (h7 : numEq (some p.amount) req.amount.toNum = true) :
    clickPrepare cfg store req =
      ({ error := some 0, error_note := "Success",
         click_trans_id := some req.click_trans_id,
         merchant_trans_id := some req.merchant_trans_id,
         merchant_prepare_id := some p.id }, store) ∧
    ∀ (cfg2 : ClickConfig) (store2 : List Payment) (req2 : ClickRequest),
      (clickPrepare cfg2 store2 req2).2 = store2 := by
  refine ⟨?_, fun cfg2 store2 req2 => clickPrepare_snd cfg2 store2 req2⟩
  unfold clickPrepare
  simp [h1, h2, h3, h4, h5, h6, h7]

/-- C8 witness: the success-and-frame theorem at the concrete PENDING payment
and valid PREPARE body. -/
theorem clickPrepare_success_and_frame_witness :
    clickPrepare cfg0 [pay0] reqPrepare0 =
      ({ error := some 0, error_note := "Success",
         click_trans_id := some (JVal.num 7),
         merchant_trans_id := some (JVal.str "abc"),
         merchant_prepare_id := some 42 }, [pay0]) ∧
    ∀ (cfg2 : ClickConfig) (store2 : List Payment) (req2 : ClickRequest),
      (clickPrepare cfg2 store2 req2).2 = store2 :=
  clickPrepare_success_and_frame cfg0 [pay0] reqPrepare0 pay0
    (by decide) (by decide) (by decide) (by decide) (by rfl) (by rfl) (by decide)

/-- C9 counterexample: the options object clickApiRequest hands to fetch carry
no timeout or cancellation bound at all — for both the GET used by status sync
and the DELETE used by reversal the signal slot is none — so "every outbound
gateway call applies a bounded timeout" is false for these concrete calls. -/
theorem click_fetch_applies_no_timeout :
    (clickApiRequest ClickStatusResponse "GET" false
        FetchOutcome.networkError).1.signalTimeoutMs = none ∧
    (clickApiRequest JVal "DELETE" false
        FetchOutcome.networkError).1.signalTimeoutMs = none :=
  ⟨rfl, rfl⟩

/-- C9 amended: no timeout is configured on the outbound calls; but whenever
the gateway call throws (network rejection or non-2xx response), status sync
and reversal leave the store untouched and propagate exactly that error upward
(when the handler reaches the call at all). -/
theorem gateway_failure_leaves_store_untouched (store : List Payment) (id : Int)
    (oS : FetchOutcome ClickStatusResponse) (oR : FetchOutcome JVal)
    (e1 e2 : GatewayFailure)
    (hS : (clickApiRequest ClickStatusResponse "GET" false oS).2 = Except.error e1)
    (hR : (clickApiRequest JVal "DELETE" false oR).2 = Except.error e2) :
    (syncPaymentStatusFromClick store id oS).2 = store ∧
    (reversePayment store id oR).2 = store ∧
    (∀ p, getPaymentById store id = some p →
      (syncPaymentStatusFromClick store id oS).1 = Except.error e1) ∧
    (∀ p, getPaymentById store id = some p → p.clickPaymentId.truthy = true →
      (reversePayment store id oR).1 = Except.error e2) := by
  refine ⟨?_, ?_, ?_, ?_⟩
  · unfold syncPaymentStatusFromClick
    split
    · rfl
    · rw [hS]
  · unfold reversePayment
    split
    · rfl
    · split
      · rfl
      · rw [hR]
  · intro p hp
    unfold syncPaymentStatusFromClick
    rw [hp, hS]
  · intro p hp ht
    unfold reversePayment
    rw [hp]
    simp [ht, hR]

/-- C9 witness: the theorem applied to a payment with click_payment_id 5, a
network rejection on the sync GET and a 500 response on the reversal DELETE. -/
theorem gateway_failure_untouched_witness :
    (syncPaymentStatusFromClick [{ pay0 with clickPaymentId := JVal.num 5 }] 42
        FetchOutcome.networkError).2 = [{ pay0 with clickPaymentId := JVal.num 5 }] ∧
    (reversePayment [{ pay0 with clickPaymentId := JVal.num 5 }] 42
        (FetchOutcome.response 500 none)).2 =
      [{ pay0 with clickPaymentId := JVal.num 5 }] ∧
    (∀ p, getPaymentById [{ pay0 with clickPaymentId := JVal.num 5 }] 42 = some p →
      (syncPaymentStatusFromClick [{ pay0 with clickPaymentId := JVal.num 5 }] 42
          FetchOutcome.networkError).1 = Except.error GatewayFailure.networkError) ∧
    (∀ p, getPaymentById [{ pay0 with clickPaymentId := JVal.num 5 }] 42 = some p →
      p.clickPaymentId.truthy = true →
      (reversePayment [{ pay0 with clickPaymentId := JVal.num 5 }] 42
          (FetchOutcome.response 500 none)).1 =
        Except.error (GatewayFailure.apiError 500)) :=
  gateway_failure_leaves_store_untouched [{ pay0 with clickPaymentId := JVal.num 5 }] 42
    FetchOutcome.networkError (FetchOutcome.response 500 none)
    GatewayFailure.networkError (GatewayFailure.apiError 500) (by rfl) (by rfl)
